import Mathlib

/-!
Shallow embedding of the relay core of `src/script.py` (a source-to-destination
bridge event relayer): the replay-protection store (`StateDB`), the event
validator/processor (`EventProcessor.process_event`), the destination
broadcaster (`TransactionBroadcaster.broadcast`), and the polling loop body
(`BridgeContractListener.run`).

Python dictionaries with optional fields become structures with `Option`
fields; Python truthiness of strings and integers is modelled explicitly;
the filesystem backing the store is a small inductive `Medium`; external chain
interactions inside `broadcast` (nonce query, receipt polling, raw submission)
are supplied through an explicit environment record.
-/

namespace MemFollow

/-- Python truthiness of an optional string (`None` and `""` are falsy). -/
def truthyStr : Option String → Bool
  | none => false
  | some s => !s.isEmpty

/-- Python truthiness of an optional integer (`None` and `0` are falsy). -/
def truthyNat : Option Nat → Bool
  | none => false
  | some n => n != 0

/-- The `args` dictionary of a decoded `TokensDeposited` log
(`SOURCE_BRIDGE_ABI`): `sender`, `recipient`, `amount`, `destinationChainId`,
`nonce`.  Fields are optional because the code reads them with `.get`. -/
structure EventArgs where
  sender : Option String
  recipient : Option String
  amount : Option Nat
  destinationChainId : Option Nat
  nonce : Option Nat
  deriving Repr, DecidableEq

/-- A source-chain event as consumed by the loop: `event['transactionHash']`
(modelled directly as its hex string, so `.hex()` is the identity),
`event.get('blockNumber')` and `event['args']`. -/
structure SourceEvent where
  transactionHash : String
  blockNumber : Option Nat
  args : EventArgs
  deriving Repr, DecidableEq

/-- The dictionary returned by `EventProcessor.process_event` (script.py
lines 179–184). -/
structure PreparedTx where
  recipient : String
  amount : Nat
  source_tx_hash : String
  original_event : SourceEvent
  deriving Repr, DecidableEq

/-- The state file backing `StateDB`, as seen by `StateDB._load`:
either absent, readable-but-failing (an `IOError` or `json.JSONDecodeError`,
the two exceptions `_load` catches), or a parsed JSON object whose
`processed_hashes` key may be present or missing. -/
inductive Medium
  | absent
  | unreadable
  | object (processed_hashes : Option (List String))
  deriving Repr, DecidableEq

/-- In-memory state of `StateDB`: the `processed_hashes` list. -/
structure StateDB where
  processed_hashes : List String
  deriving Repr, DecidableEq

/-- `StateDB._load` (script.py lines 74–84): missing file gives `[]`;
a caught `IOError`/`JSONDecodeError` is logged and gives `[]`;
otherwise `data.get('processed_hashes', [])`. -/
def StateDB.load (m : Medium) : List String :=
  match m with
  | .absent => []
  | .unreadable => []
  | .object p => p.getD []

/-- `StateDB.__init__`: `self.processed_hashes = self._load()`. -/
def StateDB.ofMedium (m : Medium) : StateDB :=
  ⟨StateDB.load m⟩

/-- `StateDB._save` (lines 86–92): attempt to rewrite the whole file as
`{'processed_hashes': self.processed_hashes}`.  The write can raise an
`IOError` (`writeFails`), which `_save` catches and only logs (lines 91–92):
the file is then left in its previous state `m`, while the caller's in-memory
list has already advanced. -/
def StateDB.save (db : StateDB) (m : Medium) (writeFails : Bool) : Medium :=
  if writeFails then m else .object (some db.processed_hashes)

/-- `StateDB.is_processed`: `tx_hash in self.processed_hashes`. -/
def StateDB.is_processed (db : StateDB) (tx_hash : String) : Bool :=
  db.processed_hashes.contains tx_hash

/-- `StateDB.mark_as_processed` (lines 98–103): append and save only when the
hash is not already present; returns the new in-memory state and the new
state of the backing file.  `writeFails` is the save's write outcome: on a
caught `IOError` the method still returns normally (the failure is only
logged) with the file unchanged. -/
def StateDB.mark_as_processed (db : StateDB) (m : Medium) (writeFails : Bool)
    (tx_hash : String) : StateDB × Medium :=
  if db.is_processed tx_hash then (db, m)
  else
    let db' : StateDB := ⟨db.processed_hashes ++ [tx_hash]⟩
    (db', db'.save m writeFails)

/-- `EventProcessor.process_event` (lines 151–187), translated literally:
replay check first, then the destination-chain check
(`event_args.get('destinationChainId') != self.destination_chain_id`), then
`if not all([recipient, amount])` (Python truthiness), then the prepared
transaction. -/
def process_event (db : StateDB) (destination_chain_id : Nat)
    (event : SourceEvent) : Option PreparedTx :=
  let tx_hash := event.transactionHash
  if db.is_processed tx_hash then none
  else if event.args.destinationChainId ≠ some destination_chain_id then none
  else if truthyStr event.args.recipient && truthyNat event.args.amount then
    some { recipient := event.args.recipient.getD ""
           amount := event.args.amount.getD 0
           source_tx_hash := event.transactionHash
           original_event := event }
  else none

/-- Rejection reasons of the validation section of `process_event`
(spec section 4.3): wrong destination chain, or missing/zero required field. -/
inductive RejectReason
  | wrongDestination
  | missingField
  deriving Repr, DecidableEq

/-- The EventValidator: the validation-and-preparation part of
`process_event` (lines 164–187), i.e. everything after the replay check,
written as a standalone function that takes no store.  Each `return None`
branch of the source is labelled with its rejection reason. -/
def validate_event (expected_destination_chain_id : Nat)
    (event : SourceEvent) : Except RejectReason PreparedTx :=
  if event.args.destinationChainId ≠ some expected_destination_chain_id then
    .error .wrongDestination
  else if truthyStr event.args.recipient && truthyNat event.args.amount then
    .ok { recipient := event.args.recipient.getD ""
          amount := event.args.amount.getD 0
          source_tx_hash := event.transactionHash
          original_event := event }
  else .error .missingField

/-- The confirmation gate of `BridgeContractListener.run` (lines 304–307):
`if event_block and (latest_block - event_block) < self.confirmation_blocks:
continue`.  `event_block` is Python-truthy (not `None` and nonzero) and the
subtraction is over signed integers. -/
def gate_skips (blockNumber : Option Nat)
    (latest_block confirmation_blocks : Nat) : Bool :=
  match blockNumber with
  | none => false
  | some b =>
      (b != 0) && decide ((latest_block : ℤ) - (b : ℤ) < (confirmation_blocks : ℤ))

/-- The per-event body of the loop after the gate (lines 309–315):
`process_event`, then `broadcast` (supplied as a function `bcast`), then on a
truthy hash `mark_as_processed` (whose file write may fail per `writeFails`).
Also counts how many times `broadcast` was called. -/
def relay_event (bcast : PreparedTx → Option String) (writeFails : Bool)
    (destination_chain_id : Nat) (db : StateDB) (m : Medium)
    (event : SourceEvent) : StateDB × Medium × Nat :=
  match process_event db destination_chain_id event with
  | none => (db, m, 0)
  | some prepared_tx =>
    match bcast prepared_tx with
    | none => (db, m, 1)
    | some _ =>
      let r := StateDB.mark_as_processed db m writeFails
        prepared_tx.source_tx_hash
      (r.1, r.2, 1)

/-- One event's full treatment inside the polling loop (lines 302–315):
the confirmation gate, then `relay_event`. -/
def handle_event (bcast : PreparedTx → Option String) (writeFails : Bool)
    (destination_chain_id : Nat) (latest_block confirmation_blocks : Nat)
    (db : StateDB) (m : Medium) (event : SourceEvent) :
    StateDB × Medium × Nat :=
  if gate_skips event.blockNumber latest_block confirmation_blocks then
    (db, m, 0)
  else relay_event bcast writeFails destination_chain_id db m event

/-- Outcome of `web3.eth.wait_for_transaction_receipt(tx_hash, timeout=120)`:
either a receipt with its `status` field (1 = success) and block number, or a
timeout (which raises and is caught by the outer `except`). -/
inductive ReceiptResult
  | timeout
  | receipt (status : Nat) (blockNumber : Nat)
  deriving Repr, DecidableEq

/-- The external chain interactions performed inside
`TransactionBroadcaster.broadcast`, supplied as an environment:
the queried nonce, the destination chain's `web3.eth.gas_price`, the signer's
address, the hash of the locally signed transaction (`signed_tx.hash`), the
hash returned by `send_raw_transaction`, whether any step before submission
raises (nonce query, build, sign), and the receipt-polling outcome. -/
structure BroadcastEnv where
  nonce : Nat
  gas_price : Nat
  accountAddress : String
  signedHash : String
  sentHash : String
  preSubmitError : Bool
  receiptRes : ReceiptResult
  deriving Repr, DecidableEq

/-- The transaction payload built by `build_transaction` (lines 227–236):
fixed gas limit 200000, `gasPrice` taken from `self.web3.eth.gas_price`. -/
structure TxPayload where
  fromAddr : String
  nonce : Nat
  gas : Nat
  gasPrice : Nat
  recipient : String
  amount : Nat
  source_tx_hash : String
  deriving Repr, DecidableEq

/-- The `mintBridgedTokens(...).build_transaction({...})` call inside
`broadcast` (lines 227–236). -/
def build_transaction (env : BroadcastEnv) (tx_data : PreparedTx) : TxPayload :=
  { fromAddr := env.accountAddress
    nonce := env.nonce
    gas := 200000
    gasPrice := env.gas_price
    recipient := tx_data.recipient
    amount := tx_data.amount
    source_tx_hash := tx_data.source_tx_hash }

/-- `web3.to_wei(g, 'gwei')` for an integer gwei value. -/
def to_wei_gwei (g : Nat) : Nat := g * 1000000000

/-- `TransactionBroadcaster.get_gas_price_from_api` (lines 203–216).  The
argument models the HTTP interaction: `none` is a raised `RequestException`
(request failure or bad status); `some maxFee` is the parsed JSON with
`data.get('fast', {}).get('maxFee')` equal to `maxFee`.  A missing or falsy
(zero) `maxFee` yields `None`; otherwise the gwei value converted to wei. -/
def get_gas_price_from_api (response : Option (Option Nat)) : Option Nat :=
  match response with
  | none => none
  | some maxFee =>
    match maxFee with
    | some gas_price_gwei =>
        if gas_price_gwei != 0 then some (to_wei_gwei gas_price_gwei) else none
    | none => none

/-- `TransactionBroadcaster.broadcast` (lines 218–261).  Returns the result
(`Some hex-hash` or `None`) together with whether `send_raw_transaction` was
executed (a real destination submission).  A pre-submission exception is
caught by the outer `except` and yields `None` with no submission; in
simulate mode the locally signed hash is returned without submitting; in live
mode the raw transaction is sent, then the receipt decides: status 1 gives
the sent hash, any other status gives `None`, and a timeout raises (caught,
`None`). -/
def broadcast (simulate_only : Bool) (env : BroadcastEnv)
    (tx_data : PreparedTx) : Option String × Bool :=
  if env.preSubmitError then (none, false)
  else
    let _tx_payload := build_transaction env tx_data
    if simulate_only then (some env.signedHash, false)
    else
      match env.receiptRes with
      | .timeout => (none, true)
      | .receipt status _ =>
        if status = 1 then (some env.sentHash, true) else (none, true)

/-- State of the web3 event filter created with `fromBlock='latest'`:
the entries that have arrived but have not yet been returned by
`get_new_entries`. -/
structure FilterSt where
  pending : List SourceEvent
  deriving Repr, DecidableEq

/-- `self.event_filter.get_new_entries()`: per web3 semantics (and the
ChainHandle contract of spec section 6), each log entry is delivered exactly
once across calls — the call returns everything pending and clears it.
`arrivals` are the logs that reached the filter since the previous call. -/
def get_new_entries (arrivals : List SourceEvent) (f : FilterSt) :
    List SourceEvent × FilterSt :=
  (f.pending ++ arrivals, ⟨[]⟩)

/-- One cycle's mutable state of `BridgeContractListener.run`: the store,
its backing file, and the event filter. -/
structure LoopState where
  db : StateDB
  medium : Medium
  filter : FilterSt
  deriving Repr, DecidableEq

/-- One iteration of the `while` loop of `BridgeContractListener.run`
(lines 299–317): read `latest_block`, drain the filter, and run each returned
event through the gate and `relay_event` in order.  Returns the new loop
state and the number of `broadcast` calls made this cycle. -/
def run_cycle (bcast : PreparedTx → Option String) (writeFails : Bool)
    (destination_chain_id : Nat) (latest_block confirmation_blocks : Nat)
    (arrivals : List SourceEvent) (st : LoopState) : LoopState × Nat :=
  let drained := get_new_entries arrivals st.filter
  let final := drained.1.foldl
    (fun (acc : StateDB × Medium × Nat) e =>
      let r := handle_event bcast writeFails destination_chain_id latest_block
        confirmation_blocks acc.1 acc.2.1 e
      (r.1, r.2.1, acc.2.2 + r.2.2))
    (st.db, st.medium, 0)
  (⟨final.1, final.2.1, drained.2⟩, final.2.2)

/-! Concrete fixtures used to exercise the definitions on explicit inputs. -/

/-- Well-formed `args` of a deposit event aimed at chain 137. -/
def sampleArgs : EventArgs :=
  ⟨some "0xSENDER", some "0xRECIPIENT", some 50, some 137, some 1⟩

/-- A valid deposit event at block 100 with hash `0xaa`. -/
def sampleEvent : SourceEvent := ⟨"0xaa", some 100, sampleArgs⟩

/-- The same event contents but with no `blockNumber` field. -/
def sampleEventNoBlock : SourceEvent := ⟨"0xbb", none, sampleArgs⟩

/-- An event whose `destinationChainId` (1) differs from the configured 137. -/
def sampleEventWrongChain : SourceEvent :=
  ⟨"0xcc", some 100, ⟨some "0xSENDER", some "0xRECIPIENT", some 50, some 1, some 1⟩⟩

/-- The prepared transaction `process_event` derives from `sampleEvent`. -/
def samplePreparedTx : PreparedTx := ⟨"0xRECIPIENT", 50, "0xaa", sampleEvent⟩

/-- A broadcast environment whose receipt reports success (status 1). -/
def envConfirmed : BroadcastEnv :=
  ⟨7, 5, "0xACCT", "0xSIGNED", "0xSENT", false, .receipt 1 123⟩

/-- A broadcast environment whose receipt reports a revert (status 0). -/
def envReverted : BroadcastEnv :=
  ⟨7, 5, "0xACCT", "0xSIGNED", "0xSENT", false, .receipt 0 123⟩

/-- A broadcast environment where receipt polling times out. -/
def envTimeout : BroadcastEnv :=
  ⟨7, 5, "0xACCT", "0xSIGNED", "0xSENT", false, .timeout⟩

/-- The live-mode broadcaster under a fixed environment, as the loop sees it. -/
def liveBroadcast (env : BroadcastEnv) : PreparedTx → Option String :=
  fun tx => (broadcast false env tx).1

/-- An empty in-memory store. -/
def sampleStore0 : StateDB := ⟨[]⟩

/-- Loop state at startup over a missing state file and a fresh filter. -/
def initialLoopState : LoopState := ⟨⟨[]⟩, .absent, ⟨[]⟩⟩

/-- The same event contents but sitting in block 0. -/
def sampleEventBlockZero : SourceEvent := ⟨"0xdd", some 0, sampleArgs⟩

/-- Running the per-event pipeline (lines 309–315) twice on the same event,
as in the idempotence property of spec section 8; also sums the number of
`broadcast` calls. -/
def relay_twice (bcast : PreparedTx → Option String) (writeFails : Bool)
    (destination_chain_id : Nat) (db : StateDB) (m : Medium)
    (event : SourceEvent) : StateDB × Medium × Nat :=
  let r1 := relay_event bcast writeFails destination_chain_id db m event
  let r2 := relay_event bcast writeFails destination_chain_id r1.1 r1.2.1 event
  (r2.1, r2.2.1, r1.2.2 + r2.2.2)

/-- The persistence invariant that holds at construction and is maintained by
records whose file writes succeed: every hash in the in-memory list is also
in the backing file. -/
def StoreInv (db : StateDB) (m : Medium) : Prop :=
  ∀ x, db.is_processed x = true → (StateDB.load m).contains x = true

/-! Helper lemmas shared by the claim theorems. -/

/-- Inversion for a successful `process_event`: the hash was not yet in the
store and the prepared transaction carries the event's hash. -/
theorem process_event_some_inv {db : StateDB} {cfg : Nat} {e : SourceEvent}
    {tx : PreparedTx} (h : process_event db cfg e = some tx) :
    db.is_processed e.transactionHash = false ∧
    tx.source_tx_hash = e.transactionHash := by
  unfold process_event at h
  by_cases h1 : db.is_processed e.transactionHash = true
  · rw [if_pos h1] at h
    exact absurd h (by simp)
  · rw [if_neg h1] at h
    refine ⟨by simpa using h1, ?_⟩
    by_cases h2 : e.args.destinationChainId ≠ some cfg
    · rw [if_pos h2] at h
      exact absurd h (by simp)
    · rw [if_neg h2] at h
      by_cases h3 : (truthyStr e.args.recipient && truthyNat e.args.amount) = true
      · rw [if_pos h3] at h
        have := Option.some.inj h
        rw [← this]
      · rw [if_neg h3] at h
        exact absurd h (by simp)

/-- If the hash is already stored, `process_event` returns `None` at the
replay check. -/
theorem process_event_none_of_processed {db : StateDB} {cfg : Nat}
    {e : SourceEvent} (h : db.is_processed e.transactionHash = true) :
    process_event db cfg e = none := by
  unfold process_event
  rw [if_pos h]

/-! Claim theorems. -/

/-- C5: event validation is store-independent — `process_event` is exactly the
replay-check gate followed by the pure validator `validate_event`, which takes
no store at all; hence the validation verdict (accepted instruction or
rejection) is the same under any store state, and in the embedding it is a
total function, performing no I/O. -/
theorem C5_validation_store_independent :
    ∀ (db : StateDB) (cfg : Nat) (e : SourceEvent),
      process_event db cfg e =
        if db.is_processed e.transactionHash then none
        else (validate_event cfg e).toOption := by
  intro db cfg e
  unfold process_event validate_event
  by_cases h1 : db.is_processed e.transactionHash = true
  · rw [if_pos h1, if_pos h1]
  · rw [if_neg h1, if_neg h1]
    by_cases h2 : e.args.destinationChainId ≠ some cfg
    · rw [if_pos h2, if_pos h2]
      rfl
    · rw [if_neg h2, if_neg h2]
      by_cases h3 : (truthyStr e.args.recipient && truthyNat e.args.amount) = true
      · rw [if_pos h3, if_pos h3]
        rfl
      · rw [if_neg h3, if_neg h3]
        rfl

/-- C3 counterexample: an event in block 0 at `currentHeight = 0` with
`confirmationDepth = 6` is **not** skipped by the gate (Python's `if
event_block and ...` treats block 0 as falsy), although the claimed formula
`currentHeight - blockNumber >= confirmationDepth` says it is not yet final;
the event is fully processed and recorded at height 0. -/
theorem C3_counterexample :
    gate_skips (some 0) 0 6 = false ∧
    ¬ ((6 : ℤ) ≤ (0 : ℤ) - (0 : ℤ)) ∧
    (handle_event (liveBroadcast envConfirmed) false 137 0 6 sampleStore0
        .absent sampleEventBlockZero).1.is_processed "0xdd" = true := by
  decide

/-- C3 (amended): for events whose `blockNumber` is present and nonzero, the
gate lets the event through exactly when
`currentHeight - blockNumber >= confirmationDepth`; with depth 6 this is
`currentHeight ≥ H + 6`.  A skipped event is left untouched this cycle and a
passed event goes to `relay_event`.  (Events with an absent or zero
`blockNumber` bypass the gate — see C10.) -/
theorem C3_confirmation_gate :
    (∀ latest depth b : Nat, b ≠ 0 →
      (gate_skips (some b) latest depth = false ↔
        (depth : ℤ) ≤ (latest : ℤ) - (b : ℤ))) ∧
    (∀ latest b : Nat, b ≠ 0 →
      (gate_skips (some b) latest 6 = false ↔ b + 6 ≤ latest)) ∧
    (∀ (bcast : PreparedTx → Option String) (wf : Bool)
      (cfg latest depth : Nat) (db : StateDB) (m : Medium) (e : SourceEvent),
      (gate_skips e.blockNumber latest depth = true →
        handle_event bcast wf cfg latest depth db m e = (db, m, 0)) ∧
      (gate_skips e.blockNumber latest depth = false →
        handle_event bcast wf cfg latest depth db m e =
          relay_event bcast wf cfg db m e)) := by
  refine ⟨?_, ?_, ?_⟩
  · intro latest depth b hb
    have hb' : (b != 0) = true := by simpa using hb
    simp [gate_skips, hb']
  · intro latest b hb
    have hb' : (b != 0) = true := by simpa using hb
    simp [gate_skips, hb']
    omega
  · intro bcast wf cfg latest depth db m e
    constructor <;> intro h <;> simp [handle_event, h]

/-- Witness for C3's amended theorem at concrete inputs: block 100 with
depth 6 passes at height 106, is still skipped at height 105, and a skipped
event leaves the state untouched. -/
theorem C3_confirmation_gate_witness :
    (gate_skips (some 100) 106 6 = false ↔ (6 : ℤ) ≤ (106 : ℤ) - (100 : ℤ)) ∧
    (gate_skips (some 100) 105 6 = false ↔ 100 + 6 ≤ 105) ∧
    handle_event (liveBroadcast envConfirmed) false 137 100 6 sampleStore0
      .absent sampleEvent = (sampleStore0, Medium.absent, 0) :=
  ⟨C3_confirmation_gate.1 106 6 100 (by decide),
   C3_confirmation_gate.2.1 105 100 (by decide),
   (C3_confirmation_gate.2.2 (liveBroadcast envConfirmed) false 137 100 6
      sampleStore0 .absent sampleEvent).1 (by decide)⟩

/-- C10: an event whose `blockNumber` is absent or zero bypasses the
confirmation gate entirely (`if event_block and ...` is false) and is handed
to `relay_event` in the same cycle, for every `latest_block` and every
`confirmation_blocks`. -/
theorem C10_falsy_block_bypasses_gate :
    ∀ (bcast : PreparedTx → Option String) (wf : Bool)
      (cfg latest depth : Nat) (db : StateDB) (m : Medium) (e : SourceEvent),
      e.blockNumber = none ∨ e.blockNumber = some 0 →
      gate_skips e.blockNumber latest depth = false ∧
      handle_event bcast wf cfg latest depth db m e =
        relay_event bcast wf cfg db m e := by
  intro bcast wf cfg latest depth db m e h
  have hg : gate_skips e.blockNumber latest depth = false := by
    rcases h with h | h <;> rw [h] <;> simp [gate_skips]
  exact ⟨hg, by simp [handle_event, hg]⟩

/-- Witness for C10: the event without a `blockNumber` field goes straight to
processing even at height 1000000 with depth 6. -/
theorem C10_falsy_block_bypasses_gate_witness :
    gate_skips sampleEventNoBlock.blockNumber 1000000 6 = false ∧
    handle_event (liveBroadcast envConfirmed) false 137 1000000 6 sampleStore0
        .absent sampleEventNoBlock =
      relay_event (liveBroadcast envConfirmed) false 137 sampleStore0 .absent
        sampleEventNoBlock :=
  C10_falsy_block_bypasses_gate (liveBroadcast envConfirmed) false 137 1000000
    6 sampleStore0 .absent sampleEventNoBlock (Or.inl rfl)

/-- C4 counterexample: a backing file that exists but cannot be read
(`IOError` or unparseable JSON — `Medium.unreadable`) is **not** fatal: the
store is constructed with an empty in-memory replay set, exactly the state
the claim says must not occur for a non-absent read failure. -/
theorem C4_counterexample :
    StateDB.ofMedium Medium.unreadable = ⟨[]⟩ ∧
    Medium.unreadable ≠ Medium.absent := by
  decide

/-- C4 (amended): at startup the store treats a missing file as empty, and
also treats a caught read failure (`IOError`/`JSONDecodeError`) and a JSON
object without the `processed_hashes` key as empty — no read outcome is
fatal; a well-formed file yields exactly its recorded list. -/
theorem C4_load_behavior :
    StateDB.load .absent = [] ∧
    StateDB.load .unreadable = [] ∧
    StateDB.load (.object none) = [] ∧
    (∀ l : List String, StateDB.load (.object (some l)) = l) ∧
    (∀ m : Medium, StateDB.ofMedium m = ⟨StateDB.load m⟩) :=
  ⟨rfl, rfl, rfl, fun _ => rfl, fun _ => rfl⟩

/-- C8: an event whose `destinationChainId` differs from the configured id is
rejected by the validator with `WrongDestination` (this check precedes the
missing-field check, so it fires even if `recipient`/`amount` are also bad),
`process_event` returns `None`, and the loop body leaves the store and its
backing file untouched and makes no `broadcast` call, for every
`latest_block` and `confirmation_blocks`. -/
theorem C8_wrong_destination_rejected :
    ∀ (bcast : PreparedTx → Option String) (wf : Bool)
      (cfg latest depth : Nat) (db : StateDB) (m : Medium) (e : SourceEvent),
      e.args.destinationChainId ≠ some cfg →
      validate_event cfg e = .error .wrongDestination ∧
      process_event db cfg e = none ∧
      handle_event bcast wf cfg latest depth db m e = (db, m, 0) := by
  intro bcast wf cfg latest depth db m e h
  have hv : validate_event cfg e = .error .wrongDestination := by
    unfold validate_event
    rw [if_pos h]
  have hp : process_event db cfg e = none := by
    unfold process_event
    by_cases h1 : db.is_processed e.transactionHash = true
    · rw [if_pos h1]
    · rw [if_neg h1, if_pos h]
  refine ⟨hv, hp, ?_⟩
  unfold handle_event
  by_cases hg : gate_skips e.blockNumber latest depth = true
  · rw [if_pos hg]
  · rw [if_neg hg]
    simp [relay_event, hp]

/-- Witness for C8: the event destined for chain 1 under configuration 137 is
rejected with `WrongDestination` and the loop state is unchanged. -/
theorem C8_wrong_destination_rejected_witness :
    sampleEventWrongChain.args.destinationChainId ≠ some 137 ∧
    validate_event 137 sampleEventWrongChain = .error .wrongDestination ∧
    process_event sampleStore0 137 sampleEventWrongChain = none ∧
    handle_event (liveBroadcast envConfirmed) false 137 1000 6 sampleStore0
      .absent sampleEventWrongChain = (sampleStore0, Medium.absent, 0) :=
  ⟨by decide,
   C8_wrong_destination_rejected (liveBroadcast envConfirmed) false 137 1000 6
     sampleStore0 .absent sampleEventWrongChain (by decide)⟩

/-- C9 counterexample: when the rewrite of the state file raises `IOError` —
which `_save` catches and only logs (script.py lines 91–92) —
`mark_as_processed` of a fresh hash still returns normally (the code's notion
of success) and the in-memory list contains the hash, but a freshly
constructed store over the same, now stale, backing file does **not** report
it: durability fails after a silently failed write. -/
theorem C9_counterexample :
    (StateDB.mark_as_processed ⟨[]⟩ .absent true "0xaa").1.is_processed
        "0xaa" = true ∧
    (StateDB.ofMedium
        (StateDB.mark_as_processed ⟨[]⟩ .absent true "0xaa").2).is_processed
        "0xaa" = false := by
  decide

/-- C9 (amended): provided every file write so far has succeeded —
(1) `StoreInv` (memory covered by file) holds at construction, (2) it is
preserved by a record whose own write succeeds — (3) after such a record a
freshly constructed store over the backing file contains the hash; and
regardless of write outcomes, (4) recording an already-present hash changes
neither memory nor file (a no-op), and (5) recording preserves
no-duplicates in memory and in the persisted set.  If a write raises
`IOError` it is only logged: memory advances, the file stays stale, and
durability can fail (see the counterexample). -/
theorem C9_store_record :
    (∀ m : Medium, StoreInv (StateDB.ofMedium m) m) ∧
    (∀ (db : StateDB) (m : Medium) (h : String), StoreInv db m →
      StoreInv (db.mark_as_processed m false h).1
        (db.mark_as_processed m false h).2) ∧
    (∀ (db : StateDB) (m : Medium) (h : String), StoreInv db m →
      (StateDB.ofMedium (db.mark_as_processed m false h).2).is_processed h =
        true) ∧
    (∀ (db : StateDB) (m : Medium) (wf : Bool) (h : String),
      db.is_processed h = true → db.mark_as_processed m wf h = (db, m)) ∧
    (∀ (db : StateDB) (m : Medium) (wf : Bool) (h : String),
      db.processed_hashes.Nodup → (StateDB.load m).Nodup →
      (db.mark_as_processed m wf h).1.processed_hashes.Nodup ∧
      (StateDB.load (db.mark_as_processed m wf h).2).Nodup) := by
  refine ⟨?_, ?_, ?_, ?_, ?_⟩
  · intro m x hx
    exact hx
  · intro db m h hinv
    unfold StateDB.mark_as_processed
    by_cases hp : db.is_processed h = true
    · rw [if_pos hp]
      exact hinv
    · rw [if_neg hp]
      intro x hx
      simpa [StateDB.save, StateDB.load, StateDB.is_processed] using hx
  · intro db m h hinv
    unfold StateDB.mark_as_processed
    by_cases hp : db.is_processed h = true
    · rw [if_pos hp]
      simpa [StateDB.ofMedium, StateDB.is_processed] using hinv h hp
    · rw [if_neg hp]
      simp [StateDB.ofMedium, StateDB.save, StateDB.load, StateDB.is_processed]
  · intro db m wf h hp
    unfold StateDB.mark_as_processed
    rw [if_pos hp]
  · intro db m wf h hn hnm
    unfold StateDB.mark_as_processed
    by_cases hp : db.is_processed h = true
    · rw [if_pos hp]
      exact ⟨hn, hnm⟩
    · rw [if_neg hp]
      have hmem : h ∉ db.processed_hashes := by
        simpa [StateDB.is_processed] using hp
      constructor
      · simpa [List.nodup_append, hn] using hmem
      · cases wf with
        | true => simpa [StateDB.save] using hnm
        | false => simpa [StateDB.save, StateDB.load, List.nodup_append, hn]
            using hmem

/-- Witness for C9's amended theorem at concrete inputs: the loaded store
satisfies the invariant; a successful-write record preserves it and makes a
freshly loaded store contain `0xaa`; re-recording an already-present hash is
the identity even when the write would fail; the resulting hash sets are
duplicate-free. -/
theorem C9_store_record_witness :
    StoreInv (StateDB.ofMedium (.object (some ["0xaa"])))
      (.object (some ["0xaa"])) ∧
    StoreInv (StateDB.mark_as_processed ⟨[]⟩ .absent false "0xbb").1
      (StateDB.mark_as_processed ⟨[]⟩ .absent false "0xbb").2 ∧
    (StateDB.ofMedium
        ((StateDB.mark_as_processed ⟨[]⟩ .absent false
          "0xaa").2)).is_processed "0xaa" = true ∧
    StateDB.mark_as_processed ⟨["0xaa"]⟩ (.object (some ["0xaa"])) true
        "0xaa" = (⟨["0xaa"]⟩, .object (some ["0xaa"])) ∧
    ((StateDB.mark_as_processed ⟨[]⟩ .absent false
        "0xaa").1.processed_hashes.Nodup ∧
      (StateDB.load
        (StateDB.mark_as_processed ⟨[]⟩ .absent false "0xaa").2).Nodup) :=
  ⟨C9_store_record.1 (.object (some ["0xaa"])),
   C9_store_record.2.1 ⟨[]⟩ .absent "0xbb"
      (fun x hx => by simp [StateDB.is_processed] at hx),
   C9_store_record.2.2.1 ⟨[]⟩ .absent "0xaa"
      (fun x hx => by simp [StateDB.is_processed] at hx),
   C9_store_record.2.2.2.1 ⟨["0xaa"]⟩ (.object (some ["0xaa"])) true "0xaa"
      (by decide),
   C9_store_record.2.2.2.2 ⟨[]⟩ .absent false "0xaa" (by decide) (by decide)⟩

/-- C2: commit-point correctness — (1) in live mode a reverted receipt or a
receipt timeout makes `broadcast` return `None`, so the loop body leaves the
store and the backing file untouched; (2) the store can change only when
`process_event` accepted the event and the broadcaster returned a hash;
(3) in live mode a hash is returned only on a status-1 receipt and it is the
hash returned by `send_raw_transaction`; (4) in simulate mode (absent a
pre-submission exception) the locally computed signed-transaction hash is
returned without submitting. -/
theorem C2_commit_point :
    (∀ (env : BroadcastEnv) (wf : Bool) (cfg : Nat) (db : StateDB)
        (m : Medium) (e : SourceEvent),
      (env.receiptRes = .timeout ∨
        ∃ s b, env.receiptRes = .receipt s b ∧ s ≠ 1) →
      (relay_event (liveBroadcast env) wf cfg db m e).1 = db ∧
      (relay_event (liveBroadcast env) wf cfg db m e).2.1 = m) ∧
    (∀ (bcast : PreparedTx → Option String) (wf : Bool) (cfg : Nat)
        (db : StateDB) (m : Medium) (e : SourceEvent),
      (relay_event bcast wf cfg db m e).1 ≠ db ∨
        (relay_event bcast wf cfg db m e).2.1 ≠ m →
      ∃ tx hsh, process_event db cfg e = some tx ∧ bcast tx = some hsh) ∧
    (∀ (env : BroadcastEnv) (tx : PreparedTx) (hsh : String),
      (broadcast false env tx).1 = some hsh →
      env.preSubmitError = false ∧
      (∃ b, env.receiptRes = .receipt 1 b) ∧ hsh = env.sentHash) ∧
    (∀ (env : BroadcastEnv) (tx : PreparedTx),
      env.preSubmitError = false →
      broadcast true env tx = (some env.signedHash, false)) := by
  refine ⟨?_, ?_, ?_, ?_⟩
  · intro env wf cfg db m e hrec
    have hb : ∀ tx, liveBroadcast env tx = none := by
      intro tx
      by_cases hp : env.preSubmitError = true
      · simp [liveBroadcast, broadcast, hp]
      · rcases hrec with h | ⟨s, b, h, hs⟩
        · simp [liveBroadcast, broadcast, hp, h]
        · simp [liveBroadcast, broadcast, hp, h, hs]
    cases hpe : process_event db cfg e
    · simp [relay_event, hpe]
    · simp [relay_event, hpe, hb]
  · intro bcast wf cfg db m e hne
    cases hpe : process_event db cfg e with
    | none => simp [relay_event, hpe] at hne
    | some tx =>
      cases hbc : bcast tx with
      | none => simp [relay_event, hpe, hbc] at hne
      | some hsh => exact ⟨tx, hsh, rfl, hbc⟩
  · intro env tx hsh h
    unfold broadcast at h
    by_cases hp : env.preSubmitError = true
    · rw [if_pos hp] at h
      exact absurd h (by simp)
    · rw [if_neg hp] at h
      refine ⟨by simpa using hp, ?_⟩
      cases hr : env.receiptRes with
      | timeout =>
        rw [hr] at h
        simp at h
      | receipt s b =>
        rw [hr] at h
        by_cases hs : s = 1
        · subst hs
          simp at h
          exact ⟨⟨b, rfl⟩, h.symm⟩
        · simp [hs] at h
  · intro env tx hp
    simp [broadcast, hp]

/-- Witness for C2 at concrete inputs: a reverted receipt and a timeout both
leave the state untouched; a state change exhibits an accepted event and a
returned hash; the confirmed live broadcast returns the sent hash; simulate
mode returns the signed hash without submitting. -/
theorem C2_commit_point_witness :
    ((relay_event (liveBroadcast envReverted) false 137 sampleStore0 .absent
        sampleEvent).1 = sampleStore0 ∧
      (relay_event (liveBroadcast envReverted) false 137 sampleStore0 .absent
        sampleEvent).2.1 = Medium.absent) ∧
    ((relay_event (liveBroadcast envTimeout) false 137 sampleStore0 .absent
        sampleEvent).1 = sampleStore0 ∧
      (relay_event (liveBroadcast envTimeout) false 137 sampleStore0 .absent
        sampleEvent).2.1 = Medium.absent) ∧
    (∃ tx hsh, process_event sampleStore0 137 sampleEvent = some tx ∧
      liveBroadcast envConfirmed tx = some hsh) ∧
    (envConfirmed.preSubmitError = false ∧
      (∃ b, envConfirmed.receiptRes = .receipt 1 b) ∧
      "0xSENT" = envConfirmed.sentHash) ∧
    broadcast true envConfirmed samplePreparedTx =
      (some envConfirmed.signedHash, false) :=
  ⟨C2_commit_point.1 envReverted false 137 sampleStore0 .absent sampleEvent
      (Or.inr ⟨0, 123, rfl, by decide⟩),
   C2_commit_point.1 envTimeout false 137 sampleStore0 .absent sampleEvent
      (Or.inl rfl),
   C2_commit_point.2.1 (liveBroadcast envConfirmed) false 137 sampleStore0
      .absent sampleEvent (Or.inl (by decide)),
   C2_commit_point.2.2.1 envConfirmed samplePreparedTx "0xSENT" (by decide),
   C2_commit_point.2.2.2 envConfirmed samplePreparedTx rfl⟩

/-- C7 counterexample: with the gas price oracle configured and reachable —
it answers with `fast.maxFee` of 100 gwei, which `get_gas_price_from_api`
converts to 100000000000 wei — the transaction that `broadcast` builds still
carries the destination chain's suggested price (5 wei), not the oracle's:
`broadcast` never consults the oracle helper. -/
theorem C7_counterexample :
    get_gas_price_from_api (some (some 100)) = some 100000000000 ∧
    (build_transaction envConfirmed samplePreparedTx).gasPrice =
      envConfirmed.gas_price ∧
    envConfirmed.gas_price = 5 ∧
    (5 : Nat) ≠ 100000000000 := by
  decide

/-- C7 (amended): the transaction built by `broadcast` always uses the
destination chain's suggested gas price (`web3.eth.gas_price`), for every
environment; the helper `get_gas_price_from_api` — which yields the oracle's
price in wei exactly when the request succeeds and `fast.maxFee` is present
and nonzero, and `None` on any failure — exists but is not called by
`broadcast`. -/
theorem C7_gas_price_source :
    (∀ (env : BroadcastEnv) (tx : PreparedTx),
      (build_transaction env tx).gasPrice = env.gas_price) ∧
    get_gas_price_from_api none = none ∧
    get_gas_price_from_api (some none) = none ∧
    (∀ g : Nat, get_gas_price_from_api (some (some g)) =
      if g != 0 then some (to_wei_gwei g) else none) ∧
    (∀ (resp : Option (Option Nat)) (w : Nat),
      get_gas_price_from_api resp = some w →
      ∃ g, resp = some (some g) ∧ g ≠ 0 ∧ w = to_wei_gwei g) := by
  refine ⟨fun env tx => rfl, rfl, rfl, fun g => rfl, ?_⟩
  intro resp w h
  cases resp with
  | none => simp [get_gas_price_from_api] at h
  | some maxFee =>
    cases maxFee with
    | none => simp [get_gas_price_from_api] at h
    | some g =>
      simp only [get_gas_price_from_api] at h
      by_cases hg : (g != 0) = true
      · rw [if_pos hg] at h
        exact ⟨g, rfl, by simpa using hg, (Option.some.inj h).symm⟩
      · rw [if_neg hg] at h
        exact absurd h (by simp)

/-- Witness for C7's amended theorem at concrete inputs: a built transaction
uses the chain price, and a successful oracle read of 30 gwei comes from a
reachable response with a nonzero `maxFee`. -/
theorem C7_gas_price_source_witness :
    (build_transaction envReverted samplePreparedTx).gasPrice =
      envReverted.gas_price ∧
    get_gas_price_from_api (some (some 30)) =
      (if (30 : Nat) != 0 then some (to_wei_gwei 30) else none) ∧
    (∃ g, (some (some 30) : Option (Option Nat)) = some (some g) ∧ g ≠ 0 ∧
      to_wei_gwei 30 = to_wei_gwei g) :=
  ⟨C7_gas_price_source.1 envReverted samplePreparedTx,
   C7_gas_price_source.2.2.2.1 30,
   C7_gas_price_source.2.2.2.2 (some (some 30)) (to_wei_gwei 30) (by decide)⟩

/-- C1 counterexample: with a live broadcaster whose receipt reports a revert
both times, running the pipeline twice on the same valid event makes **two**
`broadcast` calls — each of which executed `send_raw_transaction`, i.e. a
real destination submission — and leaves **zero** ReplayStore entries for
the event's hash, contradicting "exactly one entry and at most one
submission". -/
theorem C1_counterexample :
    (relay_twice (liveBroadcast envReverted) false 137 sampleStore0 .absent
        sampleEvent).2.2 = 2 ∧
    (relay_twice (liveBroadcast envReverted) false 137 sampleStore0 .absent
        sampleEvent).1.processed_hashes.count "0xaa" = 0 ∧
    (broadcast false envReverted samplePreparedTx).2 = true := by
  decide

/-- C1 (amended): if the event passes the replay check and validation and the
broadcaster deterministically returns a hash for its prepared transaction,
then running the pipeline twice yields exactly one ReplayStore entry for the
event's hash and exactly one `broadcast` call; and whenever the event's hash
is already stored, `process_event` returns `None` and the loop body never
calls `broadcast`. -/
theorem C1_pipeline_idempotent :
    (∀ (bcast : PreparedTx → Option String) (wf : Bool) (cfg : Nat)
        (db : StateDB) (m : Medium) (e : SourceEvent) (tx : PreparedTx)
        (hsh : String),
      process_event db cfg e = some tx → bcast tx = some hsh →
      (relay_twice bcast wf cfg db m e).1.processed_hashes.count
          e.transactionHash = 1 ∧
      (relay_twice bcast wf cfg db m e).2.2 = 1) ∧
    (∀ (bcast : PreparedTx → Option String) (wf : Bool) (cfg : Nat)
        (db : StateDB) (m : Medium) (e : SourceEvent),
      db.is_processed e.transactionHash = true →
      process_event db cfg e = none ∧
      relay_event bcast wf cfg db m e = (db, m, 0)) := by
  constructor
  · intro bcast wf cfg db m e tx hsh hpe hb
    obtain ⟨hnp, hsrc⟩ := process_event_some_inv hpe
    have hmem : e.transactionHash ∉ db.processed_hashes := by
      simpa [StateDB.is_processed] using hnp
    have h1 : relay_event bcast wf cfg db m e =
        (⟨db.processed_hashes ++ [e.transactionHash]⟩,
          StateDB.save ⟨db.processed_hashes ++ [e.transactionHash]⟩ m wf,
          1) := by
      simp [relay_event, hpe, hb, StateDB.mark_as_processed, hsrc, hnp]
    have h2 : (⟨db.processed_hashes ++ [e.transactionHash]⟩ :
        StateDB).is_processed e.transactionHash = true := by
      simp [StateDB.is_processed]
    have h3 : process_event
        (⟨db.processed_hashes ++ [e.transactionHash]⟩ : StateDB) cfg e =
        none := process_event_none_of_processed h2
    have hcount : (db.processed_hashes ++ [e.transactionHash]).count
        e.transactionHash = 1 := by
      rw [List.count_append, List.count_eq_zero_of_not_mem hmem]
      simp
    have h4 : relay_event bcast wf cfg
        ⟨db.processed_hashes ++ [e.transactionHash]⟩
        (StateDB.save ⟨db.processed_hashes ++ [e.transactionHash]⟩ m wf) e =
        (⟨db.processed_hashes ++ [e.transactionHash]⟩,
          StateDB.save ⟨db.processed_hashes ++ [e.transactionHash]⟩ m wf,
          0) := by
      simp [relay_event, h3]
    have h5 : relay_twice bcast wf cfg db m e =
        (⟨db.processed_hashes ++ [e.transactionHash]⟩,
          StateDB.save ⟨db.processed_hashes ++ [e.transactionHash]⟩ m wf,
          1) := by
      simp only [relay_twice]
      rw [h1]
      dsimp only
      rw [h4]
      rfl
    rw [h5]
    exact ⟨hcount, rfl⟩
  · intro bcast wf cfg db m e hp
    have hpe := @process_event_none_of_processed db cfg e hp
    exact ⟨hpe, by simp [relay_event, hpe]⟩

/-- Witness for C1's amended theorem at concrete inputs: two runs on the
valid event with a confirming broadcaster record `0xaa` exactly once with one
broadcast call, and with `0xaa` pre-recorded the pipeline is a no-op. -/
theorem C1_pipeline_idempotent_witness :
    ((relay_twice (liveBroadcast envConfirmed) false 137 sampleStore0 .absent
        sampleEvent).1.processed_hashes.count "0xaa" = 1 ∧
      (relay_twice (liveBroadcast envConfirmed) false 137 sampleStore0 .absent
        sampleEvent).2.2 = 1) ∧
    (process_event ⟨["0xaa"]⟩ 137 sampleEvent = none ∧
      relay_event (liveBroadcast envConfirmed) false 137 ⟨["0xaa"]⟩ .absent
        sampleEvent = (⟨["0xaa"]⟩, .absent, 0)) :=
  ⟨C1_pipeline_idempotent.1 (liveBroadcast envConfirmed) false 137
      sampleStore0 .absent sampleEvent samplePreparedTx "0xSENT" (by decide)
      (by decide),
   C1_pipeline_idempotent.2 (liveBroadcast envConfirmed) false 137 ⟨["0xaa"]⟩
      .absent sampleEvent (by decide)⟩

/-- C6 (code defect, demonstrated): the filter delivers each entry exactly
once, so a not-yet-final event (block 100 seen at height 100, depth 6) is
returned in cycle 1, skipped by the gate with `continue`, and the next cycle
— even at height 200, where it is long final — receives no entries: the
event is never processed and never recorded, with zero broadcast calls.  The
final conjunct shows the same event at height 200 **would** be processed and
recorded had it been re-presented. -/
theorem C6_nonfinal_event_dropped :
    (get_new_entries [sampleEvent] initialLoopState.filter).1 =
      [sampleEvent] ∧
    (run_cycle (liveBroadcast envConfirmed) false 137 100 6 [sampleEvent]
        initialLoopState).1.db = ⟨[]⟩ ∧
    (run_cycle (liveBroadcast envConfirmed) false 137 100 6 [sampleEvent]
        initialLoopState).2 = 0 ∧
    (get_new_entries []
        (run_cycle (liveBroadcast envConfirmed) false 137 100 6 [sampleEvent]
          initialLoopState).1.filter).1 = [] ∧
    (run_cycle (liveBroadcast envConfirmed) false 137 200 6 []
        (run_cycle (liveBroadcast envConfirmed) false 137 100 6 [sampleEvent]
          initialLoopState).1).1.db.is_processed "0xaa" = false ∧
    (run_cycle (liveBroadcast envConfirmed) false 137 200 6 []
        (run_cycle (liveBroadcast envConfirmed) false 137 100 6 [sampleEvent]
          initialLoopState).1).2 = 0 ∧
    (handle_event (liveBroadcast envConfirmed) false 137 200 6 ⟨[]⟩ .absent
        sampleEvent).1.is_processed "0xaa" = true := by
  decide

end MemFollow

